import Mathlib

/-!
Shallow embedding of `keystore2/src/km_compat/km_compat.cpp` (the keymaster
compatibility layer): operation slot pool and operation sessions, key
creation with certificate synthesis, backend discovery post-processing,
and the per-process device cache.

Machine integers are modelled as `Nat`/`Int`; the slot counter is a
`uint8_t` in the C++ class, so its unconditional increment is taken
mod 2^8.  Error codes are modelled by their numeric values (`Int`):
the legacy keymaster `V4_0::ErrorCode` values are non-positive, the
keystore2 `ResponseCode::SYSTEM_ERROR` value is positive.  Downstream
HIDL calls return a transport status plus a callback payload; each call
outcome is a `Transact` value supplied by a `Device` environment record.
-/

namespace KmCompat

/-! ## Error codes and status values -/

/-- Numeric value of `V4_0_ErrorCode::OK`. -/
def V4_OK : Int := 0

/-- Numeric value of `V4_0_ErrorCode::UNKNOWN_ERROR`. -/
def UNKNOWN_ERROR : Int := -1000

/-- Numeric value of `V4_0_ErrorCode::TOO_MANY_OPERATIONS`. -/
def TOO_MANY_OPERATIONS : Int := -68

/-- Numeric value of `V4_0_ErrorCode::UNIMPLEMENTED`. -/
def UNIMPLEMENTED : Int := -100

/-- Numeric value of `V4_0_ErrorCode::INVALID_KEY_BLOB`. -/
def INVALID_KEY_BLOB : Int := -33

/-- Numeric value of `keystore2 ResponseCode::SYSTEM_ERROR`. -/
def SYSTEM_ERROR : Int := 4

/-- A binder status as observed by callers: `ok`, or a service-specific
error carrying an integer code (`ScopedAStatus::fromServiceSpecificError`). -/
inductive ScopedAStatus where
  | ok : ScopedAStatus
  | serviceSpecific : Int → ScopedAStatus
deriving DecidableEq

/-- `convertErrorCode` from km_compat.cpp: `OK` becomes an ok status, any
other code becomes a service-specific error with that code. -/
def convertErrorCode (c : Int) : ScopedAStatus :=
  if c = V4_OK then .ok else .serviceSpecific c

/-- `ScopedAStatus::isOk`. -/
def ScopedAStatus.isOk : ScopedAStatus → Bool
  | .ok => true
  | .serviceSpecific _ => false

/-- `ScopedAStatus::getServiceSpecificError` (0 on an ok status). -/
def ScopedAStatus.getServiceSpecificError : ScopedAStatus → Int
  | .ok => 0
  | .serviceSpecific c => c

/-! ## Operation slot pool (`OperationSlots`) and per-session slot
(`OperationSlot`)

`OperationSlots::mNumFreeSlots` is a `uint8_t` counter (its declaration
lives in `km_compat.h`; `setNumFreeSlots` takes a `uint8_t` in
km_compat.cpp), so it is modelled as a `Nat` reduced mod 256. -/

/-- `OperationSlots::setNumFreeSlots`: store the capacity (a `uint8_t`). -/
def OperationSlots.setNumFreeSlots (n : Nat) : Nat := n % 256

/-- `OperationSlots::claimSlot`: if the counter is positive, decrement it
and return true; otherwise leave it unchanged and return false. -/
def OperationSlots.claimSlot (s : Nat) : Nat × Bool :=
  if 0 < s then (s - 1, true) else (s, false)

/-- `OperationSlots::freeSlot`: increment the counter unconditionally
(`uint8_t` arithmetic, hence mod 256). -/
def OperationSlots.freeSlot (s : Nat) : Nat := (s + 1) % 256

/-- The state relevant to one operation session: the owning pool's free
counter (`OperationSlots::mNumFreeSlots`) and the session slot's
`OperationSlot::mIsActive` flag. -/
structure SlotState where
  pool : Nat
  mIsActive : Bool
deriving DecidableEq

/-- `OperationSlot::freeSlot`: release the pool slot on the first call
while active, and do nothing on any later call. -/
def OperationSlot.freeSlot (st : SlotState) : SlotState :=
  if st.mIsActive then { pool := OperationSlots.freeSlot st.pool, mIsActive := false } else st

/-- Modelled from the spec: `OperationSlot::hasSlot` is declared in
`km_compat.h` (not under src); per spec section 4.3 the slot is held
exactly while the session is active, so it reports `mIsActive`. -/
def OperationSlot.hasSlot (st : SlotState) : Bool := st.mIsActive

/-! ## Downstream call outcomes

A HIDL call either fails at the transport layer (`!result.isOk()`, the
callback never ran) or delivers a reply: the legacy error code plus the
callback payload. -/

/-- Outcome of one downstream backend call. -/
inductive Transact (α : Type) where
  | fail : Transact α
  | reply : Int → α → Transact α
deriving DecidableEq

/-! ## Operation session methods (`KeyMintOperation`)

The mechanical parameter/token translation performed on the way in and
out (`convertKeyParametersToLegacy` and friends) is out of scope per
spec section 1; the methods are modelled by their status result, the
payload fields the certificate-synthesis path reads, and their effect on
the slot state. -/

/-- The outputs of `KeyMintOperation::update` that callers observe:
the status, `*_aidl_return` (bytes consumed) and the output bytes.
On a transport failure the C++ leaves `*_aidl_return` uninitialized;
that read is modelled as 0. -/
structure UpdateReturn where
  status : ScopedAStatus
  inputConsumed : Nat
  output : List Nat
deriving DecidableEq

/-- `KeyMintOperation::update`: forward to the backend; on transport
failure free the slot and report SYSTEM_ERROR; on a reported error free
the slot; on success keep the slot. -/
def KeyMintOperation.update (dev : Transact (Nat × List Nat)) (st : SlotState) :
    UpdateReturn × SlotState :=
  match dev with
  | .fail =>
    ({ status := .serviceSpecific SYSTEM_ERROR, inputConsumed := 0, output := [] },
     OperationSlot.freeSlot st)
  | .reply code payload =>
    let ret : UpdateReturn :=
      { status := convertErrorCode code, inputConsumed := payload.1, output := payload.2 }
    if code = V4_OK then (ret, st) else (ret, OperationSlot.freeSlot st)

/-- `KeyMintOperation::finish`: forward to the backend, free the slot
unconditionally (before the transport check), then report the status. -/
def KeyMintOperation.finish (dev : Transact (List Nat)) (st : SlotState) :
    (ScopedAStatus × List Nat) × SlotState :=
  let st1 := OperationSlot.freeSlot st
  match dev with
  | .fail => ((.serviceSpecific SYSTEM_ERROR, []), st1)
  | .reply code output => ((convertErrorCode code, output), st1)

/-- `KeyMintOperation::abort`: forward the abort to the backend
(its reported code becomes the status) and free the slot. -/
def KeyMintOperation.abort (backendCode : Int) (st : SlotState) : ScopedAStatus × SlotState :=
  (convertErrorCode backendCode, OperationSlot.freeSlot st)

/-- `KeyMintOperation::~KeyMintOperation`: if the slot is still held,
behave as an abort (the abort's status is only logged). -/
def KeyMintOperation.dtor (backendCode : Int) (st : SlotState) : SlotState :=
  if OperationSlot.hasSlot st then (KeyMintOperation.abort backendCode st).2 else st

/-- One caller-visible event on a live operation session, carrying the
backend outcome it encounters. -/
inductive OpEvent where
  | updateEv : Transact (Nat × List Nat) → OpEvent
  | finishEv : Transact (List Nat) → OpEvent
  | abortEv : Int → OpEvent
  | dtorEv : Int → OpEvent

/-- Whether an event is one of the terminating calls named by the spec
(finish, abort, or destruction). -/
def OpEvent.isTerminal : OpEvent → Bool
  | .finishEv _ => true
  | .abortEv _ => true
  | .dtorEv _ => true
  | .updateEv _ => false

/-- Effect of one session event on the slot state. -/
def stepOp (st : SlotState) : OpEvent → SlotState
  | .updateEv dev => (KeyMintOperation.update dev st).2
  | .finishEv dev => (KeyMintOperation.finish dev st).2
  | .abortEv c => (KeyMintOperation.abort c st).2
  | .dtorEv c => KeyMintOperation.dtor c st

/-- Run a sequence of session events. -/
def runOp (st : SlotState) : List OpEvent → SlotState
  | [] => st
  | e :: rest => runOp (stepOp st e) rest

/-- Run `k` consecutive `claimSlot` calls; returns the final counter and
the number of successful claims. -/
def runClaims : Nat → Nat → Nat × Nat
  | s, 0 => (s, 0)
  | s, k + 1 =>
    let r := OperationSlots.claimSlot s
    let rest := runClaims r.1 k
    (rest.1, if r.2 then rest.2 + 1 else rest.2)

/-! ## Key parameters -/

/-- `keymint::Algorithm` (the members used by km_compat). -/
inductive Algorithm where
  | RSA | EC | AES | TRIPLE_DES | HMAC
deriving DecidableEq, Inhabited

/-- `keymint::PaddingMode` (the members used by km_compat). -/
inductive PaddingMode where
  | NONE | RSA_OAEP | RSA_PSS | RSA_PKCS1_1_5_ENCRYPT | RSA_PKCS1_1_5_SIGN | PKCS7
deriving DecidableEq, Inhabited

/-- `keymint::Digest`. -/
inductive Digest where
  | NONE | MD5 | SHA1 | SHA_2_224 | SHA_2_256 | SHA_2_384 | SHA_2_512
deriving DecidableEq, Inhabited

/-- `keymint::KeyPurpose` (the members used by km_compat). -/
inductive KeyPurpose where
  | ENCRYPT | DECRYPT | SIGN | VERIFY | WRAP_KEY
deriving DecidableEq, Inhabited

/-- `keymint::KeyFormat`. -/
inductive KeyFormat where
  | X509 | PKCS8 | RAW
deriving DecidableEq, Inhabited

/-- A key parameter: a tag together with its typed value.  Only the tags
km_compat's certificate-synthesis logic inspects are distinguished; all
other tags are collapsed into `otherParam` (they are only ever forwarded
to the backend verbatim). -/
inductive KeyParameter where
  | algorithm : Algorithm → KeyParameter
  | padding : PaddingMode → KeyParameter
  | digest : Digest → KeyParameter
  | purpose : KeyPurpose → KeyParameter
  | noAuthRequired : KeyParameter
  | attestationChallenge : List Nat → KeyParameter
  | applicationId : List Nat → KeyParameter
  | applicationData : List Nat → KeyParameter
  | activeDateTime : Nat → KeyParameter
  | usageExpireDateTime : Nat → KeyParameter
  | otherParam : KeyParameter
deriving DecidableEq

/-- `authorizationValue(TAG_ALGORITHM, kp)`. -/
def algorithmValue : KeyParameter → Option Algorithm
  | .algorithm a => some a
  | _ => none

/-- `authorizationValue(TAG_PADDING, kp)`. -/
def paddingValue : KeyParameter → Option PaddingMode
  | .padding p => some p
  | _ => none

/-- `authorizationValue(TAG_DIGEST, kp)`. -/
def digestValue : KeyParameter → Option Digest
  | .digest d => some d
  | _ => none

/-- `authorizationValue(TAG_PURPOSE, kp)`. -/
def purposeValue : KeyParameter → Option KeyPurpose
  | .purpose p => some p
  | _ => none

/-- `authorizationValue(TAG_ATTESTATION_CHALLENGE, kp)`. -/
def attestationChallengeValue : KeyParameter → Option (List Nat)
  | .attestationChallenge c => some c
  | _ => none

/-- `authorizationValue(TAG_APPLICATION_ID, kp)`. -/
def applicationIdValue : KeyParameter → Option (List Nat)
  | .applicationId b => some b
  | _ => none

/-- `authorizationValue(TAG_APPLICATION_DATA, kp)`. -/
def applicationDataValue : KeyParameter → Option (List Nat)
  | .applicationData b => some b
  | _ => none

/-- `authorizationValue(TAG_ACTIVE_DATETIME, kp)`. -/
def activeDateTimeValue : KeyParameter → Option Nat
  | .activeDateTime d => some d
  | _ => none

/-- `authorizationValue(TAG_USAGE_EXPIRE_DATETIME, kp)`. -/
def usageExpireDateTimeValue : KeyParameter → Option Nat
  | .usageExpireDateTime d => some d
  | _ => none

/-- `authorizationValue(TAG_NO_AUTH_REQUIRED, kp)`. -/
def noAuthRequiredValue : KeyParameter → Option Unit
  | .noAuthRequired => some ()
  | _ => none

/-- `getParam`: return the value of the first parameter matching the tag
(iteration order), or nothing. -/
def getParam {α : Type} (value : KeyParameter → Option α) : List KeyParameter → Option α
  | [] => none
  | kp :: rest =>
    match value kp with
    | some v => some v
    | none => getParam value rest

/-- `containsParam`. -/
def containsParam {α : Type} (value : KeyParameter → Option α)
    (keyParams : List KeyParameter) : Bool :=
  (getParam value keyParams).isSome

/-- Loop body of `getMaximum`: iterators into `sortedOptions` are
modelled as indices, with `sortedOptions.length` playing the role of the
`end()` iterator (which is also what `std::find` returns on a miss,
mirrored by `List.findIdx`).  The C++ guard is
`std::distance(it, bestSoFar) < 0`, i.e. `bestSoFar - it < 0`. -/
def getMaximumLoop {α : Type} [DecidableEq α] (value : KeyParameter → Option α)
    (sortedOptions : List α) : List KeyParameter → Nat → Nat
  | [], bestSoFar => bestSoFar
  | kp :: rest, bestSoFar =>
    match value kp with
    | some v =>
      let it := sortedOptions.findIdx (fun x => decide (x = v))
      getMaximumLoop value sortedOptions rest
        (if (bestSoFar : Int) - (it : Int) < 0 then it else bestSoFar)
    | none => getMaximumLoop value sortedOptions rest bestSoFar

/-- `getMaximum` from km_compat.cpp (its comment reads: prefer the
smallest; if no options are found, return the first).  The final
dereference `*bestSoFar` is `getD` with an irrelevant fallback, and
`sortedOptions[0]` is `headI` (callers always pass non-empty lists;
the C++ would be undefined on an empty one). -/
def getMaximum {α : Type} [DecidableEq α] [Inhabited α] (keyParams : List KeyParameter)
    (value : KeyParameter → Option α) (sortedOptions : List α) : α :=
  let bestSoFar := getMaximumLoop value sortedOptions keyParams sortedOptions.length
  if bestSoFar = sortedOptions.length then sortedOptions.headI
  else sortedOptions.getD bestSoFar default

/-! ## Backend device environment

All downstream outcomes a single key-creation call can consume: the
legacy keymaster calls (as `Transact` outcomes) and the success of each
external certificate-utility step (`keystore::makeCert`, `setIssuer`,
`signCertWith`, `signCert`, `encodeCert` live in certificate_utils, an
external collaborator per spec section 1, so only their outcomes are
modelled).  `deleteKey`'s own result is discarded by the C++ callers, so
it has no field; the fact that it was invoked is recorded in the
outcome. -/
structure Device where
  genReply : Transact (List Nat)
  importReply : Transact (List Nat)
  exportReply : Transact (List Nat)
  attestReply : Transact (List (List Nat))
  beginReply : Transact Nat
  updateReply : Transact (Nat × List Nat)
  finishReply : Transact (List Nat)
  abortCode : Int
  makeCertOk : Bool
  setIssuerOk : Bool
  signCertWithOk : Bool
  signCertOk : Bool
  encodeReply : Option (List Nat)
deriving DecidableEq

/-- `makeCert` (static helper in km_compat.cpp): export the public key
(scoped by application id/data), then build the unsigned certificate via
the certificate utility.  A transport failure on `exportKey` and a
utility failure (including an unparseable public key) become
UNKNOWN_ERROR; a backend-reported export error is returned as-is.  The
certificate object itself is opaque here (`Unit`). -/
def makeCert (d : Device) (keyParams : List KeyParameter) (_keyBlob : List Nat) :
    Except Int Unit :=
  match d.exportReply with
  | .fail => .error UNKNOWN_ERROR
  | .reply code _keyMaterial =>
    if code ≠ V4_OK then .error code
    else
      let _activation := (getParam activeDateTimeValue keyParams).getD 0
      let _expiration := (getParam usageExpireDateTimeValue keyParams).getD 18446744073709551615
      if d.makeCertOk then .ok () else .error UNKNOWN_ERROR

/-- `keystore::Algo`. -/
inductive KsAlgo where
  | RSA | ECDSA
deriving DecidableEq

/-- `keystore::Padding`. -/
inductive KsPadding where
  | PKCS1_5 | PSS | Ignored
deriving DecidableEq

/-- `keystore::Digest`. -/
inductive KsDigest where
  | SHA1 | SHA224 | SHA256 | SHA384 | SHA512
deriving DecidableEq

/-- `getKeystoreAlgorithm`: symmetric algorithms are an error. -/
def getKeystoreAlgorithm : Algorithm → Except Int KsAlgo
  | .RSA => .ok .RSA
  | .EC => .ok .ECDSA
  | _ => .error UNKNOWN_ERROR

/-- `getKeystorePadding` (the default case never errors). -/
def getKeystorePadding : PaddingMode → Except Int KsPadding
  | .RSA_PKCS1_1_5_SIGN => .ok .PKCS1_5
  | .RSA_PSS => .ok .PSS
  | _ => .ok .Ignored

/-- `getKeystoreDigest` (NONE maps to SHA256; MD5 is an error). -/
def getKeystoreDigest : Digest → Except Int KsDigest
  | .SHA1 => .ok .SHA1
  | .SHA_2_224 => .ok .SHA224
  | .SHA_2_256 => .ok .SHA256
  | .NONE => .ok .SHA256
  | .SHA_2_384 => .ok .SHA384
  | .SHA_2_512 => .ok .SHA512
  | _ => .error UNKNOWN_ERROR

/-- `KeyMintDevice::begin`: claim a slot (failing with
TOO_MANY_OPERATIONS before reaching the backend when the pool is empty);
on transport failure free the slot and report SYSTEM_ERROR; on a
reported error free the slot.  The returned `Bool` is the created
`KeyMintOperation`'s `mIsActive` flag (`error == OK`); on transport
failure no operation object reaches the caller and the flag is unused. -/
def KeyMintDevice.begin (d : Device) (pool : Nat) : ScopedAStatus × Nat × Bool :=
  let claimed := OperationSlots.claimSlot pool
  if claimed.2 = false then (convertErrorCode TOO_MANY_OPERATIONS, claimed.1, false)
  else
    match d.beginReply with
    | .fail => (.serviceSpecific SYSTEM_ERROR, OperationSlots.freeSlot claimed.1, false)
    | .reply code _operationHandle =>
      if code = V4_OK then (.ok, claimed.1, true)
      else (convertErrorCode code, OperationSlots.freeSlot claimed.1, false)

/-- The signing callback that `KeyMintDevice::signCertificate` passes to
`keystore::signCertWith`: a full begin/update/finish cycle on the same
facade.  Returns the callback-diagnosed error code (the closure-captured
`errorCode`, set only by a failed begin or a failed finish) and the
resulting free-slot count.  The update call's status is not checked by
the C++, only its bytes-consumed output; a zero bytes-consumed makes the
callback return an empty signature with the error code still OK. -/
def selfSignCallback (d : Device) (pool : Nat) : Int × Nat :=
  let b := KeyMintDevice.begin d pool
  if b.1.isOk = false then (b.1.getServiceSpecificError, b.2.1)
  else
    let s0 : SlotState := { pool := b.2.1, mIsActive := b.2.2 }
    let u := KeyMintOperation.update d.updateReply s0
    if u.1.inputConsumed = 0 then (V4_OK, u.2.pool)
    else
      let f := KeyMintOperation.finish d.finishReply u.2
      if f.1.1.isOk = false then (f.1.1.getServiceSpecificError, f.2.pool)
      else (V4_OK, f.2.pool)

/-- `KeyMintDevice::signCertificate`: resolve algorithm, padding and
digest (padding and digest via `getMaximum`), then self-sign through
`keystore::signCertWith`, whose signing callback is `selfSignCallback`.
A library failure is UNKNOWN_ERROR (checked before the callback's own
diagnosed code); otherwise a non-OK callback code is returned; otherwise
no error.  The C++ dereferences `getParam(TAG_ALGORITHM)` without a
check; its only caller guarantees presence, so the `getD` fallback is
unreachable. -/
def KeyMintDevice.signCertificate (d : Device) (keyParams : List KeyParameter)
    (pool : Nat) : Option Int × Nat :=
  let algorithm := (getParam algorithmValue keyParams).getD Algorithm.RSA
  match getKeystoreAlgorithm algorithm with
  | .error e => (some e, pool)
  | .ok _algo =>
    let origPadding := getMaximum keyParams paddingValue
      [PaddingMode.RSA_PSS, PaddingMode.RSA_PKCS1_1_5_SIGN]
    match getKeystorePadding origPadding with
    | .error e => (some e, pool)
    | .ok _pad =>
      let origDigest := getMaximum keyParams digestValue
        [Digest.SHA_2_256, Digest.SHA_2_512, Digest.SHA_2_384, Digest.SHA_2_224, Digest.SHA1]
      match getKeystoreDigest origDigest with
      | .error e => (some e, pool)
      | .ok _dig =>
        let cb := selfSignCallback d pool
        if d.signCertWithOk = false then (some UNKNOWN_ERROR, cb.2)
        else if cb.1 ≠ V4_OK then (some cb.1, cb.2)
        else (none, cb.2)

/-- The `std::variant<std::vector<Certificate>, ErrorCode>` result of
`getCertificate`; returning `code V4_OK` is the successful
no-certificate case. -/
inductive CertVariant where
  | chain : List (List Nat) → CertVariant
  | code : Int → CertVariant
deriving DecidableEq

/-- `KeyMintDevice::getCertificate`: no algorithm parameter is
UNKNOWN_ERROR; a symmetric algorithm is the OK-without-certificate case;
an attestation challenge delegates to `attestKey` (transport failure
becomes UNKNOWN_ERROR, a reported error is propagated); otherwise build
the certificate via `makeCert`, make it self-issued, sign it (a full
self-sign cycle when the key has purpose SIGN and no-auth-required,
otherwise an ephemeral EC key), and encode it into a single-element
chain. -/
def KeyMintDevice.getCertificate (d : Device) (keyParams : List KeyParameter)
    (keyBlob : List Nat) (pool : Nat) : CertVariant × Nat :=
  match getParam algorithmValue keyParams with
  | none => (.code UNKNOWN_ERROR, pool)
  | some alg =>
    if alg = Algorithm.RSA ∨ alg = Algorithm.EC then
      if containsParam attestationChallengeValue keyParams then
        match d.attestReply with
        | .fail => (.code UNKNOWN_ERROR, pool)
        | .reply code certChain =>
          if code ≠ V4_OK then (.code code, pool) else (.chain certChain, pool)
      else
        match makeCert d keyParams keyBlob with
        | .error e => (.code e, pool)
        | .ok _cert =>
          if d.setIssuerOk = false then (.code UNKNOWN_ERROR, pool)
          else
            let canSelfSign :=
              keyParams.any (fun kp => decide (purposeValue kp = some KeyPurpose.SIGN))
            let noAuthRequired := containsParam noAuthRequiredValue keyParams
            if canSelfSign && noAuthRequired then
              match KeyMintDevice.signCertificate d keyParams pool with
              | (some e, pool1) => (.code e, pool1)
              | (none, pool1) =>
                match d.encodeReply with
                | none => (.code UNKNOWN_ERROR, pool1)
                | some encoded => (.chain [encoded], pool1)
            else
              if d.signCertOk = false then (.code UNKNOWN_ERROR, pool)
              else
                match d.encodeReply with
                | none => (.code UNKNOWN_ERROR, pool)
                | some encoded => (.chain [encoded], pool)
    else (.code V4_OK, pool)

/-- `KeyCreationResult` (the fields km_compat fills; the
key-characteristics translation is mechanical and out of scope). -/
structure KeyCreationResult where
  keyBlob : List Nat
  certificateChain : List (List Nat)
deriving DecidableEq

/-- Observable outcome of a key-creation call: the status, the creation
result, whether `deleteKey` was invoked on the new blob, and the
resulting free-slot count. -/
structure CreateOutcome where
  status : ScopedAStatus
  creationResult : KeyCreationResult
  deletedKey : Bool
  pool : Nat
deriving DecidableEq

/-- `KeyMintDevice::generateKey`: transport failure is SYSTEM_ERROR; a
backend-reported error is propagated; on success, run `getCertificate`
and, if it failed with a non-OK code, delete the just-created key and
report that code; an OK code means success without a certificate. -/
def KeyMintDevice.generateKey (d : Device) (inKeyParams : List KeyParameter)
    (pool : Nat) : CreateOutcome :=
  match d.genReply with
  | .fail =>
    { status := .serviceSpecific SYSTEM_ERROR, creationResult := ⟨[], []⟩,
      deletedKey := false, pool := pool }
  | .reply errorCode keyBlob =>
    if errorCode = V4_OK then
      match KeyMintDevice.getCertificate d inKeyParams keyBlob pool with
      | (.code c, pool1) =>
        if c ≠ V4_OK then
          { status := convertErrorCode c, creationResult := ⟨keyBlob, []⟩,
            deletedKey := true, pool := pool1 }
        else
          { status := .ok, creationResult := ⟨keyBlob, []⟩,
            deletedKey := false, pool := pool1 }
      | (.chain certs, pool1) =>
        { status := .ok, creationResult := ⟨keyBlob, certs⟩,
          deletedKey := false, pool := pool1 }
    else
      { status := convertErrorCode errorCode, creationResult := ⟨keyBlob, []⟩,
        deletedKey := false, pool := pool }

/-- `KeyMintDevice::importKey`: identical post-processing to
`generateKey`, over the import backend call. -/
def KeyMintDevice.importKey (d : Device) (inKeyParams : List KeyParameter)
    (_inKeyFormat : KeyFormat) (_inKeyData : List Nat) (pool : Nat) : CreateOutcome :=
  match d.importReply with
  | .fail =>
    { status := .serviceSpecific SYSTEM_ERROR, creationResult := ⟨[], []⟩,
      deletedKey := false, pool := pool }
  | .reply errorCode keyBlob =>
    if errorCode = V4_OK then
      match KeyMintDevice.getCertificate d inKeyParams keyBlob pool with
      | (.code c, pool1) =>
        if c ≠ V4_OK then
          { status := convertErrorCode c, creationResult := ⟨keyBlob, []⟩,
            deletedKey := true, pool := pool1 }
        else
          { status := .ok, creationResult := ⟨keyBlob, []⟩,
            deletedKey := false, pool := pool1 }
      | (.chain certs, pool1) =>
        { status := .ok, creationResult := ⟨keyBlob, certs⟩,
          deletedKey := false, pool := pool1 }
    else
      { status := convertErrorCode errorCode, creationResult := ⟨keyBlob, []⟩,
        deletedKey := false, pool := pool }

/-! ## Backend discovery (`initializeKeymasters`) -/

/-- The per-tier device table (`KeymasterDevices`); devices are
identified by opaque handles. -/
structure KeymasterDevices where
  software : Option Nat
  trustedEnvironment : Option Nat
  strongbox : Option Nat
deriving DecidableEq

/-- `initializeKeymasters` from km_compat.cpp, over the results of the
two enumeration passes (`enumerateKeymasterDevices` against Keymaster4,
then against Keymaster3 when the first pass produced no
trusted-environment device): remember the first pass's software device,
re-enumerate if needed, restore the remembered software device, and
finally promote a software device into an empty trusted-environment
slot, clearing the software slot. -/
def initKeymasters (enum4 enum3 : KeymasterDevices) : KeymasterDevices :=
  let result := enum4
  let softKeymaster := result.software
  let result := if result.trustedEnvironment.isNone then enum3 else result
  let result :=
    if softKeymaster.isSome then { result with software := softKeymaster } else result
  if result.software.isSome && result.trustedEnvironment.isNone then
    { result with trustedEnvironment := result.software, software := none }
  else result

/-! ## Per-process device cache (`createKeyMintDevice` and
`KeystoreCompatService::getKeyMintDevice`) -/

/-- `keymint::SecurityLevel` as used for the cache key. -/
inductive SecurityLevel where
  | SOFTWARE | TRUSTED_ENVIRONMENT | STRONGBOX
deriving DecidableEq

/-- A constructed `KeyMintDevice` facade.  `securityLevel` records the
constructor argument (the C++ constructor consumes it to pick the slot
capacity: 3 for STRONGBOX, 15 otherwise). -/
structure KeyMintDeviceObj where
  backend : Nat
  securityLevel : SecurityLevel
  numFreeSlots : Nat
deriving DecidableEq

/-- The `KeyMintDevice` constructor. -/
def mkKeyMintDevice (backend : Nat) (securityLevel : SecurityLevel) : KeyMintDeviceObj :=
  { backend := backend, securityLevel := securityLevel,
    numFreeSlots :=
      if securityLevel = SecurityLevel.STRONGBOX then OperationSlots.setNumFreeSlots 3
      else OperationSlots.setNumFreeSlots 15 }

/-- `KeyMintDevice::createKeyMintDevice`: the function-local static
`device_ptr` (a single pointer, passed in and returned as the second
component) is filled on first use from the discovered device for the
requested level, and returned unconditionally on every later call.
`devices` is the per-tier table produced by discovery. -/
def createKeyMintDevice (devices : SecurityLevel → Option Nat)
    (device_ptr : Option KeyMintDeviceObj) (securityLevel : SecurityLevel) :
    Option KeyMintDeviceObj × Option KeyMintDeviceObj :=
  match device_ptr with
  | some p => (some p, some p)
  | none =>
    match devices securityLevel with
    | none => (none, none)
    | some dev =>
      let p := mkKeyMintDevice dev securityLevel
      (some p, some p)

/-- State of one `KeystoreCompatService`: its per-level `mDeviceCache`
plus the static `device_ptr` inside `createKeyMintDevice`. -/
structure CompatState where
  cacheSoftware : Option KeyMintDeviceObj
  cacheTee : Option KeyMintDeviceObj
  cacheStrongbox : Option KeyMintDeviceObj
  device_ptr : Option KeyMintDeviceObj
deriving DecidableEq

/-- `mDeviceCache` lookup. -/
def CompatState.cacheAt (st : CompatState) : SecurityLevel → Option KeyMintDeviceObj
  | .SOFTWARE => st.cacheSoftware
  | .TRUSTED_ENVIRONMENT => st.cacheTee
  | .STRONGBOX => st.cacheStrongbox

/-- `mDeviceCache` insertion. -/
def CompatState.setCache (st : CompatState) (securityLevel : SecurityLevel)
    (v : Option KeyMintDeviceObj) : CompatState :=
  match securityLevel with
  | .SOFTWARE => { st with cacheSoftware := v }
  | .TRUSTED_ENVIRONMENT => { st with cacheTee := v }
  | .STRONGBOX => { st with cacheStrongbox := v }

/-- `KeystoreCompatService::getKeyMintDevice`: on a cache miss, call
`createKeyMintDevice` and cache what it returns (a `none` result models
the STATUS_NAME_NOT_FOUND error, leaving the cache untouched); then hand
back the cache entry for the requested level. -/
def getKeyMintDevice (devices : SecurityLevel → Option Nat) (st : CompatState)
    (securityLevel : SecurityLevel) : Option KeyMintDeviceObj × CompatState :=
  match st.cacheAt securityLevel with
  | some p => (some p, st)
  | none =>
    let created := createKeyMintDevice devices st.device_ptr securityLevel
    match created.1 with
    | none => (none, { st with device_ptr := created.2 })
    | some f =>
      let st1 := { st.setCache securityLevel (some f) with device_ptr := created.2 }
      (st1.cacheAt securityLevel, st1)

end KmCompat

/-! ## Theorems -/

namespace KmCompat

/-- Releasing an already-released session slot does nothing. -/
theorem freeSlot_inactive (p : Nat) : OperationSlot.freeSlot ⟨p, false⟩ = ⟨p, false⟩ := rfl

/-- Releasing a held session slot returns it to the pool and clears the
active flag. -/
theorem freeSlot_active (p : Nat) :
    OperationSlot.freeSlot ⟨p, true⟩ = ⟨(p + 1) % 256, false⟩ := rfl

/-- Running a concatenation of event lists composes. -/
theorem runOp_append (st : SlotState) (l1 l2 : List OpEvent) :
    runOp st (l1 ++ l2) = runOp (runOp st l1) l2 := by
  induction l1 generalizing st with
  | nil => rfl
  | cons e rest ih => simp [runOp, ih]

/-- One session event preserves the two-state invariant: either the slot
is still held and the pool untouched, or the slot has been released and
the pool credited once. -/
theorem slotInv_step (c : Nat) (st : SlotState)
    (h : st = ⟨c, true⟩ ∨ st = ⟨(c + 1) % 256, false⟩) (e : OpEvent) :
    stepOp st e = ⟨c, true⟩ ∨ stepOp st e = ⟨(c + 1) % 256, false⟩ := by
  rcases h with h | h <;> subst h <;> cases e with
  | updateEv dev =>
    first
    | (cases dev with
       | fail =>
         right
         simp [stepOp, KeyMintOperation.update, freeSlot_active, freeSlot_inactive]
       | reply code payload =>
         by_cases hc : code = V4_OK <;>
           simp [stepOp, KeyMintOperation.update, hc, freeSlot_active, freeSlot_inactive])
  | finishEv dev =>
    cases dev <;>
      right <;>
        simp [stepOp, KeyMintOperation.finish, freeSlot_active, freeSlot_inactive]
  | abortEv code =>
    right
    simp [stepOp, KeyMintOperation.abort, freeSlot_active, freeSlot_inactive]
  | dtorEv code =>
    right
    simp [stepOp, KeyMintOperation.dtor, KeyMintOperation.abort, OperationSlot.hasSlot,
      freeSlot_active, freeSlot_inactive]

/-- The two-state invariant holds along any event sequence. -/
theorem slotInv_run (c : Nat) (st : SlotState)
    (h : st = ⟨c, true⟩ ∨ st = ⟨(c + 1) % 256, false⟩) (l : List OpEvent) :
    runOp st l = ⟨c, true⟩ ∨ runOp st l = ⟨(c + 1) % 256, false⟩ := by
  induction l generalizing st with
  | nil => simpa [runOp] using h
  | cons e rest ih => exact ih _ (slotInv_step c st h e)

/-- From either invariant state, a terminal event lands in the released
state. -/
theorem stepOp_terminal_eq (c : Nat) (st : SlotState)
    (h : st = ⟨c, true⟩ ∨ st = ⟨(c + 1) % 256, false⟩) (e : OpEvent)
    (ht : e.isTerminal = true) : stepOp st e = ⟨(c + 1) % 256, false⟩ := by
  rcases h with h | h <;> subst h <;> cases e with
  | updateEv dev => simp [OpEvent.isTerminal] at ht
  | finishEv dev =>
    cases dev <;>
      simp [stepOp, KeyMintOperation.finish, freeSlot_active, freeSlot_inactive]
  | abortEv code =>
    simp [stepOp, KeyMintOperation.abort, freeSlot_active, freeSlot_inactive]
  | dtorEv code =>
    simp [stepOp, KeyMintOperation.dtor, KeyMintOperation.abort, OperationSlot.hasSlot,
      freeSlot_active, freeSlot_inactive]

/-- C1: for an operation session created by a successful begin (so the
slot is held and the pool stands at c, one below its pre-begin value
c + 1, as the conjunct about claimSlot records), every call sequence
ending in finish, abort, or destruction — with arbitrary interleaved
update calls, arbitrary backend outcomes, and arbitrary repetitions of
terminal calls — leaves the pool at exactly its pre-begin value c + 1
with the slot released; and OperationSlot::freeSlot is idempotent, so no
sequence releases the slot twice or zero times. -/
theorem C1_slot_released_exactly_once (c : Nat) (events : List OpEvent)
    (lastEvent : OpEvent) (hterm : lastEvent.isTerminal = true) (hc : c + 1 < 256) :
    OperationSlots.claimSlot (c + 1) = (c, true) ∧
    runOp ⟨c, true⟩ (events ++ [lastEvent]) = ⟨c + 1, false⟩ ∧
    ∀ st : SlotState,
      OperationSlot.freeSlot (OperationSlot.freeSlot st) = OperationSlot.freeSlot st := by
  refine ⟨by simp [OperationSlots.claimSlot], ?_, ?_⟩
  · rw [runOp_append]
    have hinv := slotInv_run c ⟨c, true⟩ (Or.inl rfl) events
    have hfin := stepOp_terminal_eq c _ hinv lastEvent hterm
    have : runOp (runOp ⟨c, true⟩ events) [lastEvent] =
        stepOp (runOp ⟨c, true⟩ events) lastEvent := rfl
    rw [this, hfin, Nat.mod_eq_of_lt hc]
  · intro st
    obtain ⟨p, a⟩ := st
    cases a
    · rfl
    · rw [freeSlot_active, freeSlot_inactive]

/-- C1 witness: a concrete session at pool count 5 that sees a
successful update, a failing update, a finish, and then a redundant
abort and destruction, ending with the pool at 6. -/
theorem C1_witness :
    (OpEvent.dtorEv 0).isTerminal = true ∧ 5 + 1 < 256 ∧
    (OperationSlots.claimSlot (5 + 1) = (5, true) ∧
     runOp ⟨5, true⟩
       ([.updateEv (.reply 0 (3, [])), .updateEv .fail, .finishEv (.reply 0 []),
         .abortEv 0] ++ [.dtorEv 0]) = ⟨5 + 1, false⟩ ∧
     ∀ st : SlotState,
       OperationSlot.freeSlot (OperationSlot.freeSlot st) = OperationSlot.freeSlot st) :=
  ⟨by decide, by decide,
   C1_slot_released_exactly_once 5
     [.updateEv (.reply 0 (3, [])), .updateEv .fail, .finishEv (.reply 0 []), .abortEv 0]
     (.dtorEv 0) (by decide) (by decide)⟩

/-- Closed form of a run of consecutive claimSlot calls: the counter
drops by the number of calls (saturating at zero) and the number of
successes is the smaller of the call count and the starting counter. -/
theorem runClaims_eq (k s : Nat) : runClaims s k = (s - k, min k s) := by
  induction k generalizing s with
  | zero => simp [runClaims]
  | succ k ih =>
    cases s with
    | zero => simp [runClaims, OperationSlots.claimSlot, ih]
    | succ m =>
      simp only [runClaims, OperationSlots.claimSlot, Nat.zero_lt_succ, if_pos,
        Nat.succ_sub_one, ih]
      rw [Prod.mk.injEq]
      exact ⟨by omega, by omega⟩

/-- C2: claimSlot decrements and returns true exactly when the counter
is positive and otherwise returns false leaving the counter unchanged;
starting from capacity n, k consecutive claims succeed min k n times
(never more than n), after exactly n successful claims the counter is
exhausted and the next claim fails, and a single freeSlot then restores
exactly one acquire opportunity: the next claim succeeds and the one
after it fails again. -/
theorem C2_slot_pool_admission (n k : Nat) :
    (0 < n → OperationSlots.claimSlot n = (n - 1, true)) ∧
    (n = 0 → OperationSlots.claimSlot n = (n, false)) ∧
    (runClaims n k).2 = min k n ∧
    (runClaims n k).2 ≤ n ∧
    runClaims n n = (0, n) ∧
    OperationSlots.claimSlot (runClaims n n).1 = (0, false) ∧
    OperationSlots.claimSlot (OperationSlots.freeSlot (runClaims n n).1) = (0, true) ∧
    (OperationSlots.claimSlot 0).2 = false := by
  refine ⟨?_, ?_, ?_, ?_, ?_, ?_, ?_, by decide⟩
  · intro h; simp [OperationSlots.claimSlot, h]
  · intro h; subst h; simp [OperationSlots.claimSlot]
  · rw [runClaims_eq]
  · rw [runClaims_eq]; exact min_le_right k n
  · rw [runClaims_eq]; simp
  · rw [runClaims_eq]; simp [OperationSlots.claimSlot]
  · rw [runClaims_eq]; simp [OperationSlots.claimSlot, OperationSlots.freeSlot]

/-- C2 witness: the slot-pool admission bounds at capacity 3 under 5
claim attempts. -/
theorem C2_witness :
    (0 < 3 → OperationSlots.claimSlot 3 = (3 - 1, true)) ∧
    (3 = 0 → OperationSlots.claimSlot 3 = (3, false)) ∧
    (runClaims 3 5).2 = min 5 3 ∧
    (runClaims 3 5).2 ≤ 3 ∧
    runClaims 3 3 = (0, 3) ∧
    OperationSlots.claimSlot (runClaims 3 3).1 = (0, false) ∧
    OperationSlots.claimSlot (OperationSlots.freeSlot (runClaims 3 3).1) = (0, true) ∧
    (OperationSlots.claimSlot 0).2 = false :=
  C2_slot_pool_admission 3 5

/-- C7: on an active session, an update that fails at the transport
layer reports SYSTEM_ERROR and releases the slot; an update whose
backend reply carries a non-OK code reports that code and releases the
slot; a successful update leaves the slot held and the pool untouched. -/
theorem C7_update_failure_releases_slot (st : SlotState) (hact : st.mIsActive = true)
    (hp : st.pool + 1 < 256) :
    KeyMintOperation.update .fail st =
      ({ status := .serviceSpecific SYSTEM_ERROR, inputConsumed := 0, output := [] },
       ⟨st.pool + 1, false⟩) ∧
    (∀ (code : Int) (consumed : Nat) (output : List Nat), code ≠ V4_OK →
      KeyMintOperation.update (.reply code (consumed, output)) st =
        ({ status := .serviceSpecific code, inputConsumed := consumed, output := output },
         ⟨st.pool + 1, false⟩)) ∧
    (∀ (consumed : Nat) (output : List Nat),
      KeyMintOperation.update (.reply V4_OK (consumed, output)) st =
        ({ status := .ok, inputConsumed := consumed, output := output }, st)) := by
  obtain ⟨p, a⟩ := st
  simp only at hact hp
  subst hact
  refine ⟨?_, ?_, ?_⟩
  · simp [KeyMintOperation.update, freeSlot_active, Nat.mod_eq_of_lt hp]
  · intro code consumed output hcode
    simp [KeyMintOperation.update, hcode, convertErrorCode, freeSlot_active,
      Nat.mod_eq_of_lt hp]
  · intro consumed output
    simp [KeyMintOperation.update, convertErrorCode]

/-- C7 witness: the update outcomes on an active session with pool
count 7. -/
theorem C7_witness :
    (SlotState.mk 7 true).mIsActive = true ∧ (SlotState.mk 7 true).pool + 1 < 256 ∧
    (KeyMintOperation.update .fail ⟨7, true⟩ =
      ({ status := .serviceSpecific SYSTEM_ERROR, inputConsumed := 0, output := [] },
       ⟨(SlotState.mk 7 true).pool + 1, false⟩) ∧
    (∀ (code : Int) (consumed : Nat) (output : List Nat), code ≠ V4_OK →
      KeyMintOperation.update (.reply code (consumed, output)) ⟨7, true⟩ =
        ({ status := .serviceSpecific code, inputConsumed := consumed, output := output },
         ⟨(SlotState.mk 7 true).pool + 1, false⟩)) ∧
    (∀ (consumed : Nat) (output : List Nat),
      KeyMintOperation.update (.reply V4_OK (consumed, output)) ⟨7, true⟩ =
        ({ status := .ok, inputConsumed := consumed, output := output }, ⟨7, true⟩))) :=
  ⟨rfl, by decide, C7_update_failure_releases_slot ⟨7, true⟩ rfl (by decide)⟩

/-- A symmetric algorithm makes getCertificate return the OK code (the
success-without-certificate marker) regardless of every other backend
or certificate-utility outcome. -/
theorem getCertificate_symmetric (d : Device) (params : List KeyParameter)
    (blob : List Nat) (pool : Nat) (alg : Algorithm)
    (halg : getParam algorithmValue params = some alg)
    (h1 : alg ≠ .RSA) (h2 : alg ≠ .EC) :
    KeyMintDevice.getCertificate d params blob pool = (.code V4_OK, pool) := by
  simp only [KeyMintDevice.getCertificate, halg]
  simp [h1, h2]

/-- With no algorithm parameter at all, getCertificate reports
UNKNOWN_ERROR regardless of every other outcome. -/
theorem getCertificate_no_algorithm (d : Device) (params : List KeyParameter)
    (blob : List Nat) (pool : Nat)
    (halg : getParam algorithmValue params = none) :
    KeyMintDevice.getCertificate d params blob pool = (.code UNKNOWN_ERROR, pool) := by
  simp only [KeyMintDevice.getCertificate, halg]

/-- C9: a key-creation request (generateKey or importKey) whose first
algorithm parameter is symmetric (neither RSA nor EC) succeeds with an
empty certificate chain and no key deletion — and since the device
environment is universally quantified, the outcome is independent of
every synthesis-related call outcome, i.e. certificate synthesis is
never consulted. -/
theorem C9_symmetric_empty_chain (d : Device) (params : List KeyParameter) (pool : Nat)
    (blobG blobI : List Nat) (fmt : KeyFormat) (keyData : List Nat) (alg : Algorithm)
    (hgen : d.genReply = .reply V4_OK blobG)
    (himp : d.importReply = .reply V4_OK blobI)
    (halg : getParam algorithmValue params = some alg)
    (h1 : alg ≠ .RSA) (h2 : alg ≠ .EC) :
    KeyMintDevice.generateKey d params pool =
      { status := .ok, creationResult := ⟨blobG, []⟩, deletedKey := false, pool := pool } ∧
    KeyMintDevice.importKey d params fmt keyData pool =
      { status := .ok, creationResult := ⟨blobI, []⟩, deletedKey := false, pool := pool } := by
  constructor
  · simp [KeyMintDevice.generateKey, hgen,
      getCertificate_symmetric d params blobG pool alg halg h1 h2]
  · simp [KeyMintDevice.importKey, himp,
      getCertificate_symmetric d params blobI pool alg halg h1 h2]

/-- C9 witness: generating and importing an AES key against a device
whose every synthesis-related outcome is a failure still succeeds with
an empty chain. -/
theorem C9_witness :
    ({ genReply := .reply V4_OK [9], importReply := .reply V4_OK [8], exportReply := .fail,
       attestReply := .fail, beginReply := .fail, updateReply := .fail, finishReply := .fail,
       abortCode := 0, makeCertOk := false, setIssuerOk := false, signCertWithOk := false,
       signCertOk := false, encodeReply := none } : Device).genReply = .reply V4_OK [9] ∧
    getParam algorithmValue [KeyParameter.algorithm Algorithm.AES] = some Algorithm.AES ∧
    Algorithm.AES ≠ Algorithm.RSA ∧ Algorithm.AES ≠ Algorithm.EC ∧
    (KeyMintDevice.generateKey
       { genReply := .reply V4_OK [9], importReply := .reply V4_OK [8], exportReply := .fail,
         attestReply := .fail, beginReply := .fail, updateReply := .fail, finishReply := .fail,
         abortCode := 0, makeCertOk := false, setIssuerOk := false, signCertWithOk := false,
         signCertOk := false, encodeReply := none }
       [KeyParameter.algorithm Algorithm.AES] 15 =
       { status := .ok, creationResult := ⟨[9], []⟩, deletedKey := false, pool := 15 } ∧
     KeyMintDevice.importKey
       { genReply := .reply V4_OK [9], importReply := .reply V4_OK [8], exportReply := .fail,
         attestReply := .fail, beginReply := .fail, updateReply := .fail, finishReply := .fail,
         abortCode := 0, makeCertOk := false, setIssuerOk := false, signCertWithOk := false,
         signCertOk := false, encodeReply := none }
       [KeyParameter.algorithm Algorithm.AES] KeyFormat.RAW [1, 2] 15 =
       { status := .ok, creationResult := ⟨[8], []⟩, deletedKey := false, pool := 15 }) :=
  ⟨rfl, rfl, by decide, by decide,
   C9_symmetric_empty_chain _ [KeyParameter.algorithm Algorithm.AES] 15 [9] [8]
     KeyFormat.RAW [1, 2] Algorithm.AES rfl rfl rfl (by decide) (by decide)⟩

/-- C10: when the backend creates the key successfully but the key
parameters contain no algorithm parameter at all, getCertificate reports
UNKNOWN_ERROR, and generateKey therefore deletes the just-created key
and fails the whole call — the missing algorithm tag is treated as a
synthesis failure, not as the symmetric empty-chain case. -/
theorem C10_missing_algorithm_unknown_error (d : Device) (params : List KeyParameter)
    (pool : Nat) (blob : List Nat)
    (hgen : d.genReply = .reply V4_OK blob)
    (halg : getParam algorithmValue params = none) :
    (KeyMintDevice.getCertificate d params blob pool).1 = .code UNKNOWN_ERROR ∧
    KeyMintDevice.generateKey d params pool =
      { status := .serviceSpecific UNKNOWN_ERROR, creationResult := ⟨blob, []⟩,
        deletedKey := true, pool := pool } := by
  constructor
  · rw [getCertificate_no_algorithm d params blob pool halg]
  · simp [KeyMintDevice.generateKey, hgen,
      getCertificate_no_algorithm d params blob pool halg, UNKNOWN_ERROR, V4_OK,
      convertErrorCode]

/-- C10 witness: a backend that reports success with blob 1 while the
parameter list is empty. -/
theorem C10_witness :
    ({ genReply := .reply V4_OK [1], importReply := .fail, exportReply := .fail,
       attestReply := .fail, beginReply := .fail, updateReply := .fail, finishReply := .fail,
       abortCode := 0, makeCertOk := false, setIssuerOk := false, signCertWithOk := false,
       signCertOk := false, encodeReply := none } : Device).genReply = .reply V4_OK [1] ∧
    getParam algorithmValue ([] : List KeyParameter) = none ∧
    ((KeyMintDevice.getCertificate
        { genReply := .reply V4_OK [1], importReply := .fail, exportReply := .fail,
          attestReply := .fail, beginReply := .fail, updateReply := .fail, finishReply := .fail,
          abortCode := 0, makeCertOk := false, setIssuerOk := false, signCertWithOk := false,
          signCertOk := false, encodeReply := none } [] [1] 15).1 = .code UNKNOWN_ERROR ∧
     KeyMintDevice.generateKey
        { genReply := .reply V4_OK [1], importReply := .fail, exportReply := .fail,
          attestReply := .fail, beginReply := .fail, updateReply := .fail, finishReply := .fail,
          abortCode := 0, makeCertOk := false, setIssuerOk := false, signCertWithOk := false,
          signCertOk := false, encodeReply := none } [] 15 =
        { status := .serviceSpecific UNKNOWN_ERROR, creationResult := ⟨[1], []⟩,
          deletedKey := true, pool := 15 }) :=
  ⟨rfl, rfl, C10_missing_algorithm_unknown_error _ [] 15 [1] rfl rfl⟩

/-- C3 counterexample: the backend creates the key, certificate
synthesis then fails because exportKey reports INVALID_KEY_BLOB (-33);
the code deletes the key but the call reports -33 — the propagated
export error — and not the unknown-error code (-1000) the claim
requires. -/
theorem C3_counterexample :
    KeyMintDevice.generateKey
      { genReply := .reply 0 [1], importReply := .fail, exportReply := .reply (-33) [],
        attestReply := .fail, beginReply := .fail, updateReply := .fail, finishReply := .fail,
        abortCode := 0, makeCertOk := false, setIssuerOk := false, signCertWithOk := false,
        signCertOk := false, encodeReply := none }
      [KeyParameter.algorithm Algorithm.RSA] 15 =
      { status := .serviceSpecific (-33), creationResult := ⟨[1], []⟩,
        deletedKey := true, pool := 15 } ∧
    (-33 : Int) = INVALID_KEY_BLOB ∧ INVALID_KEY_BLOB ≠ UNKNOWN_ERROR := by
  refine ⟨by decide, by decide, by decide⟩

/-- C3 (amended): for every key-creation request (generateKey or
importKey) in which the backend creates the key successfully but
certificate synthesis then fails with some non-OK code c, the
just-created key is deleted from the backend before the call returns,
and the overall call reports exactly that synthesis error code c (which
is the unknown-error code for transport, parse, sign and encode
failures, but a backend-reported code propagated as-is from the
export/attest/self-sign steps) — never a partial success. -/
theorem C3_deletion_with_propagated_code (d : Device) (params : List KeyParameter)
    (pool pool1 : Nat) (blobG blobI : List Nat) (fmt : KeyFormat) (keyData : List Nat)
    (c : Int)
    (hgen : d.genReply = .reply V4_OK blobG)
    (himp : d.importReply = .reply V4_OK blobI)
    (hcg : KeyMintDevice.getCertificate d params blobG pool = (.code c, pool1))
    (hci : KeyMintDevice.getCertificate d params blobI pool = (.code c, pool1))
    (hc : c ≠ V4_OK) :
    KeyMintDevice.generateKey d params pool =
      { status := .serviceSpecific c, creationResult := ⟨blobG, []⟩,
        deletedKey := true, pool := pool1 } ∧
    KeyMintDevice.importKey d params fmt keyData pool =
      { status := .serviceSpecific c, creationResult := ⟨blobI, []⟩,
        deletedKey := true, pool := pool1 } := by
  constructor
  · simp [KeyMintDevice.generateKey, hgen, hcg, hc, convertErrorCode]
  · simp [KeyMintDevice.importKey, himp, hci, hc, convertErrorCode]

/-- C3 witness: the deletion-and-propagation behaviour at the concrete
device of the counterexample (export reports -33), for generateKey and
importKey. -/
theorem C3_witness :
    ({ genReply := .reply V4_OK [1], importReply := .reply V4_OK [2],
       exportReply := .reply (-33) [], attestReply := .fail, beginReply := .fail,
       updateReply := .fail, finishReply := .fail, abortCode := 0, makeCertOk := false,
       setIssuerOk := false, signCertWithOk := false, signCertOk := false,
       encodeReply := none } : Device).genReply = .reply V4_OK [1] ∧
    (-33 : Int) ≠ V4_OK ∧
    (KeyMintDevice.generateKey
       { genReply := .reply V4_OK [1], importReply := .reply V4_OK [2],
         exportReply := .reply (-33) [], attestReply := .fail, beginReply := .fail,
         updateReply := .fail, finishReply := .fail, abortCode := 0, makeCertOk := false,
         setIssuerOk := false, signCertWithOk := false, signCertOk := false,
         encodeReply := none }
       [KeyParameter.algorithm Algorithm.RSA] 15 =
       { status := .serviceSpecific (-33), creationResult := ⟨[1], []⟩,
         deletedKey := true, pool := 15 } ∧
     KeyMintDevice.importKey
       { genReply := .reply V4_OK [1], importReply := .reply V4_OK [2],
         exportReply := .reply (-33) [], attestReply := .fail, beginReply := .fail,
         updateReply := .fail, finishReply := .fail, abortCode := 0, makeCertOk := false,
         setIssuerOk := false, signCertWithOk := false, signCertOk := false,
         encodeReply := none }
       [KeyParameter.algorithm Algorithm.RSA] KeyFormat.X509 [3] 15 =
       { status := .serviceSpecific (-33), creationResult := ⟨[2], []⟩,
         deletedKey := true, pool := 15 }) :=
  ⟨rfl, by decide,
   C3_deletion_with_propagated_code _ [KeyParameter.algorithm Algorithm.RSA] 15 15 [1] [2]
     KeyFormat.X509 [3] (-33) rfl rfl (by decide) (by decide) (by decide)⟩

/-- C6 counterexample: with the backend unreachable at the exportKey
call (and, in the second scenario, at the attestKey call), the
certificate-synthesis path converts the transport failure into the
legacy UNKNOWN_ERROR code (-1000), which generateKey then surfaces as a
service-specific error — a code squarely inside the legacy error-code
space (negative) and different from the generic SYSTEM_ERROR (4) the
claim requires on every path. -/
theorem C6_counterexample :
    (KeyMintDevice.generateKey
       { genReply := .reply 0 [1], importReply := .fail, exportReply := .fail,
         attestReply := .fail, beginReply := .fail, updateReply := .fail,
         finishReply := .fail, abortCode := 0, makeCertOk := false, setIssuerOk := false,
         signCertWithOk := false, signCertOk := false, encodeReply := none }
       [KeyParameter.algorithm Algorithm.RSA] 15).status =
      .serviceSpecific UNKNOWN_ERROR ∧
    (KeyMintDevice.generateKey
       { genReply := .reply 0 [1], importReply := .fail, exportReply := .fail,
         attestReply := .fail, beginReply := .fail, updateReply := .fail,
         finishReply := .fail, abortCode := 0, makeCertOk := false, setIssuerOk := false,
         signCertWithOk := false, signCertOk := false, encodeReply := none }
       [KeyParameter.algorithm Algorithm.RSA, KeyParameter.attestationChallenge []]
       15).status = .serviceSpecific UNKNOWN_ERROR ∧
    UNKNOWN_ERROR ≠ SYSTEM_ERROR ∧ UNKNOWN_ERROR < 0 := by
  refine ⟨by decide, by decide, by decide, by decide⟩

/-- C6 (amended): a transport failure on a directly forwarded backend
call (generateKey itself, update, finish, begin) is surfaced as the
generic SYSTEM_ERROR code; but on the certificate-synthesis paths a
transport failure of exportKey (inside makeCert) or of attestKey (inside
getCertificate) is converted to the legacy UNKNOWN_ERROR code instead. -/
theorem C6_transport_error_mapping :
    (∀ (d : Device) (params : List KeyParameter) (pool : Nat),
      d.genReply = .fail →
      (KeyMintDevice.generateKey d params pool).status = .serviceSpecific SYSTEM_ERROR) ∧
    (∀ st : SlotState,
      (KeyMintOperation.update .fail st).1.status = .serviceSpecific SYSTEM_ERROR) ∧
    (∀ st : SlotState,
      (KeyMintOperation.finish .fail st).1.1 = .serviceSpecific SYSTEM_ERROR) ∧
    (∀ (d : Device) (pool : Nat), d.beginReply = .fail → 0 < pool →
      (KeyMintDevice.begin d pool).1 = .serviceSpecific SYSTEM_ERROR) ∧
    (∀ (d : Device) (params : List KeyParameter) (blob : List Nat),
      d.exportReply = .fail → makeCert d params blob = .error UNKNOWN_ERROR) ∧
    (∀ (d : Device) (params : List KeyParameter) (blob : List Nat) (pool : Nat)
       (alg : Algorithm),
      d.attestReply = .fail → getParam algorithmValue params = some alg →
      (alg = Algorithm.RSA ∨ alg = Algorithm.EC) →
      containsParam attestationChallengeValue params = true →
      (KeyMintDevice.getCertificate d params blob pool).1 = .code UNKNOWN_ERROR) := by
  refine ⟨?_, ?_, ?_, ?_, ?_, ?_⟩
  · intro d params pool h
    simp [KeyMintDevice.generateKey, h]
  · intro st
    simp [KeyMintOperation.update]
  · intro st
    simp [KeyMintOperation.finish]
  · intro d pool h hp
    simp [KeyMintDevice.begin, OperationSlots.claimSlot, hp, h]
  · intro d params blob h
    simp [makeCert, h]
  · intro d params blob pool alg h halg hasym hchal
    simp only [KeyMintDevice.getCertificate, halg]
    simp [hasym, hchal, h]

/-- C6 witness: each conjunct instantiated at a concrete device and
state. -/
theorem C6_witness :
    (KeyMintDevice.generateKey
       { genReply := .fail, importReply := .fail, exportReply := .fail, attestReply := .fail,
         beginReply := .fail, updateReply := .fail, finishReply := .fail, abortCode := 0,
         makeCertOk := false, setIssuerOk := false, signCertWithOk := false,
         signCertOk := false, encodeReply := none } [] 15).status =
      .serviceSpecific SYSTEM_ERROR ∧
    (KeyMintOperation.update .fail ⟨7, true⟩).1.status = .serviceSpecific SYSTEM_ERROR ∧
    (KeyMintOperation.finish .fail ⟨7, true⟩).1.1 = .serviceSpecific SYSTEM_ERROR ∧
    (KeyMintDevice.begin
       { genReply := .fail, importReply := .fail, exportReply := .fail, attestReply := .fail,
         beginReply := .fail, updateReply := .fail, finishReply := .fail, abortCode := 0,
         makeCertOk := false, setIssuerOk := false, signCertWithOk := false,
         signCertOk := false, encodeReply := none } 15).1 = .serviceSpecific SYSTEM_ERROR ∧
    makeCert
       { genReply := .fail, importReply := .fail, exportReply := .fail, attestReply := .fail,
         beginReply := .fail, updateReply := .fail, finishReply := .fail, abortCode := 0,
         makeCertOk := false, setIssuerOk := false, signCertWithOk := false,
         signCertOk := false, encodeReply := none } [] [1] = .error UNKNOWN_ERROR ∧
    (KeyMintDevice.getCertificate
       { genReply := .fail, importReply := .fail, exportReply := .fail, attestReply := .fail,
         beginReply := .fail, updateReply := .fail, finishReply := .fail, abortCode := 0,
         makeCertOk := false, setIssuerOk := false, signCertWithOk := false,
         signCertOk := false, encodeReply := none }
       [KeyParameter.algorithm Algorithm.EC, KeyParameter.attestationChallenge []]
       [1] 15).1 = .code UNKNOWN_ERROR :=
  ⟨C6_transport_error_mapping.1 _ [] 15 rfl,
   C6_transport_error_mapping.2.1 ⟨7, true⟩,
   C6_transport_error_mapping.2.2.1 ⟨7, true⟩,
   C6_transport_error_mapping.2.2.2.1 _ 15 rfl (by decide),
   C6_transport_error_mapping.2.2.2.2.1 _ [] [1] rfl,
   C6_transport_error_mapping.2.2.2.2.2 _
     [KeyParameter.algorithm Algorithm.EC, KeyParameter.attestationChallenge []] [1] 15
     Algorithm.EC rfl rfl (by decide) rfl⟩

/-- C4: the code evaluated at the failing input.  In getMaximum the
guard std::distance(it, bestSoFar) < 0 computes bestSoFar - it, which is
never negative while bestSoFar sits at the end iterator, so bestSoFar is
never updated and the function always returns sortedOptions[0].  For the
digest preference list used by signCertificate and a parameter list
whose only digest is SHA1 — a value that does occur in the preference
list — the code returns SHA_2_256 instead of the matching SHA1 that the
claim (and the function's own comment) requires; the no-match default
case (return the most-preferred option) does behave as claimed. -/
theorem C4_getMaximum_returns_first :
    getMaximum [KeyParameter.digest Digest.SHA1] digestValue
      [Digest.SHA_2_256, Digest.SHA_2_512, Digest.SHA_2_384, Digest.SHA_2_224, Digest.SHA1]
      = Digest.SHA_2_256 ∧
    getParam digestValue [KeyParameter.digest Digest.SHA1] = some Digest.SHA1 ∧
    Digest.SHA1 ∈
      [Digest.SHA_2_256, Digest.SHA_2_512, Digest.SHA_2_384, Digest.SHA_2_224, Digest.SHA1] ∧
    Digest.SHA_2_256 ≠ Digest.SHA1 ∧
    getMaximum ([] : List KeyParameter) digestValue [Digest.SHA_2_256, Digest.SHA_2_512]
      = Digest.SHA_2_256 := by
  refine ⟨by decide, by decide, by decide, by decide, by decide⟩

/-- C5: the code evaluated at the failing input.  createKeyMintDevice
caches one static device_ptr with no regard for the requested security
level, so after a first request constructs the TRUSTED_ENVIRONMENT
facade (15 slots), a second request naming STRONGBOX receives that same
TRUSTED_ENVIRONMENT facade — not a facade constructed for STRONGBOX
(which would have 3 slots) — and getKeyMintDevice then caches it under
the STRONGBOX key. -/
theorem C5_cache_ignores_requested_tier :
    (let devices := fun _ : SecurityLevel => some 7
     let st0 : CompatState :=
       { cacheSoftware := none, cacheTee := none, cacheStrongbox := none, device_ptr := none }
     let r1 := getKeyMintDevice devices st0 SecurityLevel.TRUSTED_ENVIRONMENT
     let r2 := getKeyMintDevice devices r1.2 SecurityLevel.STRONGBOX
     r1.1 = some (mkKeyMintDevice 7 SecurityLevel.TRUSTED_ENVIRONMENT) ∧
     r2.1 = some (mkKeyMintDevice 7 SecurityLevel.TRUSTED_ENVIRONMENT) ∧
     (mkKeyMintDevice 7 SecurityLevel.TRUSTED_ENVIRONMENT).securityLevel ≠
       SecurityLevel.STRONGBOX ∧
     (mkKeyMintDevice 7 SecurityLevel.TRUSTED_ENVIRONMENT).numFreeSlots = 15 ∧
     (mkKeyMintDevice 7 SecurityLevel.STRONGBOX).numFreeSlots = 3) := by
  decide

/-- C8: after discovery, if neither enumeration pass produced a
trusted-environment instance but some pass produced a software instance,
the returned table has that software instance in the trusted-environment
slot (the first pass's software instance when it found one, otherwise
the second pass's) and the software slot empty. -/
theorem C8_software_promoted_to_tee (e4 e3 : KeymasterDevices)
    (h4 : e4.trustedEnvironment = none) (h3 : e3.trustedEnvironment = none)
    (hsw : e4.software ≠ none ∨ e3.software ≠ none) :
    (initKeymasters e4 e3).software = none ∧
    (initKeymasters e4 e3).trustedEnvironment =
      (if e4.software.isSome then e4.software else e3.software) ∧
    (initKeymasters e4 e3).trustedEnvironment ≠ none := by
  obtain ⟨s4, t4, b4⟩ := e4
  obtain ⟨s3, t3, b3⟩ := e3
  simp only at h4 h3 hsw
  subst h4
  subst h3
  cases s4 <;> cases s3 <;> simp_all [initKeymasters]

/-- C8 witness: first pass finds only a strongbox device, second pass
finds only a software device; the software device ends up in the
trusted-environment slot and the software slot is empty. -/
theorem C8_witness :
    (KeymasterDevices.mk none none (some 5)).trustedEnvironment = none ∧
    (KeymasterDevices.mk (some 2) none none).trustedEnvironment = none ∧
    ((initKeymasters ⟨none, none, some 5⟩ ⟨some 2, none, none⟩).software = none ∧
     (initKeymasters ⟨none, none, some 5⟩ ⟨some 2, none, none⟩).trustedEnvironment =
       (if (KeymasterDevices.mk none none (some 5)).software.isSome then
          (KeymasterDevices.mk none none (some 5)).software
        else (KeymasterDevices.mk (some 2) none none).software) ∧
     (initKeymasters ⟨none, none, some 5⟩ ⟨some 2, none, none⟩).trustedEnvironment ≠ none) :=
  ⟨rfl, rfl,
   C8_software_promoted_to_tee ⟨none, none, some 5⟩ ⟨some 2, none, none⟩ rfl rfl
     (Or.inr (by decide))⟩

end KmCompat
